import Mathlib

/-!
Verification of the protocol/identity-resolution/cache-orchestration pipeline
of `git-credential-msal` (src/git_credential_msal/main.py), shallowly embedded
in Lean 4.  Pure functions of the source are translated directly; interactions
with external collaborators (the `keyring` secure store, the filesystem, the
`git config` subprocess, the MSAL broker, the JWT decoder) are modelled by
passing the collaborator's observable behaviour as an explicit argument.
-/

namespace Msal

/-- A value in the parsed credential-request dictionary: Python stores either a
plain `str` (scalar `key=value` lines) or a `list` of strings (`key[]=value`
lines). -/
inductive Value where
  | scalar (s : String)
  | arr (vs : List String)
deriving DecidableEq, Repr

/-- Ordered association-list model of a Python `dict` (insertion order kept,
keys unique): lookup of the binding for `k`. -/
def getKV (kvs : List (String × Value)) (k : String) : Option Value :=
  (kvs.find? (fun p => p.1 == k)).map (fun p => p.2)

/-- `dict` assignment `kvs[k] = v`: replaces the existing binding in place, or
appends a new one. -/
def setKV : List (String × Value) → String → Value → List (String × Value)
  | [], k, v => [(k, v)]
  | (k', v') :: rest, k, v =>
    if k' = k then (k, v) :: rest else (k', v') :: setKV rest k v

/-- Characters stripped by Python's `str.rstrip()` with no argument (the ASCII
whitespace set; the exotic Unicode spaces never occur in the inputs of
interest). -/
def isPyWs (c : Char) : Bool :=
  c = ' ' || c = '\t' || c = '\n' || c = '\r' || c = '\x0b' || c = '\x0c'

/-- `line.rstrip()`: drop trailing whitespace. -/
def pyRstrip (s : String) : String :=
  String.mk ((s.toList.reverse.dropWhile isPyWs).reverse)

/-- `line.split(sep="=", maxsplit=1)` followed by the two-element unpacking in
`read_stdin_pairs`: split at the first `=`; `none` models the `ValueError`
raised when the line has no `=` at all. -/
def splitFirstEqList : List Char → Option (List Char × List Char)
  | [] => none
  | c :: rest =>
    if c = '=' then some ([], rest)
    else (splitFirstEqList rest).map (fun p => (c :: p.1, p.2))

/-- String-level wrapper of `splitFirstEqList`. -/
def splitFirstEq (s : String) : Option (String × String) :=
  (splitFirstEqList s.toList).map (fun p => (String.mk p.1, String.mk p.2))

/-- `key.endswith("[]")` together with `key = key[:-2]`: when the key ends in
`[]`, return the key with the suffix removed. -/
def splitKeyBrackets (key : String) : Option String :=
  match key.toList.reverse with
  | ']' :: '[' :: r => some (String.mk r.reverse)
  | _ => none

/-- One iteration of the loop body of `read_stdin_pairs` (main.py lines 42-54)
on a single input line.  Errors model the exceptions Python raises: a line
without `=` raises `ValueError` from unpacking, and appending to a key that
currently holds a scalar raises `AttributeError` (`str` has no `append`). -/
def read_stdin_step (kvs : List (String × Value)) (line : String) :
    Except String (List (String × Value)) :=
  match splitFirstEq (pyRstrip line) with
  | none => Except.error "ValueError: not enough values to unpack"
  | some (key, value) =>
    match splitKeyBrackets key with
    | some key2 =>
      -- `if not key in kvs or value == "": kvs[key] = []`
      let kvs2 :=
        if getKV kvs key2 = none || value = "" then setKV kvs key2 (Value.arr [])
        else kvs
      -- `kvs[key].append(value)`
      match getKV kvs2 key2 with
      | some (Value.arr vs) => Except.ok (setKV kvs2 key2 (Value.arr (vs ++ [value])))
      | some (Value.scalar _) => Except.error "AttributeError: str object has no append"
      | none => Except.error "unreachable: key was just initialised"
    | none => Except.ok (setKV kvs key (Value.scalar value))

/-- `read_stdin_pairs` (main.py lines 40-56): fold the per-line step over the
input stream, starting from the empty dict. -/
def read_stdin_pairs (lines : List String) : Except String (List (String × Value)) :=
  lines.foldlM read_stdin_step []

/-- `dropPrefixOpt p cs`: if `p` is a leading segment of `cs`, the remainder;
otherwise `none`. -/
def dropPrefixOpt : List Char → List Char → Option (List Char)
  | [], cs => some cs
  | _ :: _, [] => none
  | p :: ps, c :: cs => if p = c then dropPrefixOpt ps cs else none

/-- Python's substring test `pat in s` for strings: `pat` occurs contiguously
somewhere in `l`. -/
def containsSub (pat : List Char) : List Char → Bool
  | [] => (dropPrefixOpt pat []).isSome
  | c :: rest => (dropPrefixOpt pat (c :: rest)).isSome || containsSub pat rest

/-- `authtype_accepted` (main.py lines 59-63).  Python's `in` operator is
substring containment when `helper_pairs["capability"]` is a `str` (scalar
line) and element membership when it is a `list` (`capability[]` lines). -/
def authtype_accepted (kvs : List (String × Value)) : Bool :=
  match getKV kvs "capability" with
  | none => false
  | some (Value.scalar s) => containsSub "authtype".toList s.toList
  | some (Value.arr vs) => vs.contains "authtype"

/-! ### A small backtracking regex engine

The three module-level patterns of main.py (lines 31-37) use only character
classes, literals, alternation, and greedy / lazy starred classes.  The engine
below reproduces Python `re.match` semantics for exactly those constructs:
a match is a prefix match, alternation prefers the left branch, a greedy star
prefers the longest repetition, a lazy star the shortest.  Captured groups are
starred classes tagged with a group index. -/

/-- Character classes occurring in the source regexes: `.` (any char except a
newline), `\s` (whitespace), and a literal character. -/
inductive RChar where
  | any
  | ws
  | lit (c : Char)
deriving DecidableEq, Repr

/-- Whether a class accepts a character.  `\s` is approximated by the ASCII
whitespace set (the inputs of interest carry no Unicode spaces). -/
def RChar.accepts : RChar → Char → Bool
  | .any, c => decide (c ≠ '\n')
  | .ws, c => isPyWs c
  | .lit a, c => decide (a = c)

/-- Group bindings produced by a match: group index paired with the consumed
characters. -/
abbrev Caps := List (Nat × List Char)

/-- Greedy `(class)*` with continuation `k`: try the longest repetition first,
backtracking one character at a time. -/
def starG (c : RChar) (k : List Char → Option Caps) : List Char → Option Caps
  | [] => k []
  | x :: rest =>
    if c.accepts x then
      match starG c k rest with
      | some r => some r
      | none => k (x :: rest)
    else k (x :: rest)

/-- Lazy `(class)*?` with continuation `k`: try the shortest repetition
first. -/
def starL (c : RChar) (k : List Char → Option Caps) : List Char → Option Caps
  | [] => k []
  | x :: rest =>
    match k (x :: rest) with
    | some r => some r
    | none => if c.accepts x then starL c k rest else none

/-- Greedy captured `(class)*`: like `starG` but records the consumed
characters (accumulated reversed in `acc`) under group index `i`. -/
def groupG (i : Nat) (c : RChar) (k : List Char → Option Caps) (acc : List Char) :
    List Char → Option Caps
  | [] => (k []).map (fun r => (i, acc.reverse) :: r)
  | x :: rest =>
    if c.accepts x then
      match groupG i c k (x :: acc) rest with
      | some r => some r
      | none => (k (x :: rest)).map (fun r => (i, acc.reverse) :: r)
    else (k (x :: rest)).map (fun r => (i, acc.reverse) :: r)

/-- Lazy captured `(class)*?`. -/
def groupL (i : Nat) (c : RChar) (k : List Char → Option Caps) (acc : List Char) :
    List Char → Option Caps
  | [] => (k []).map (fun r => (i, acc.reverse) :: r)
  | x :: rest =>
    match (k (x :: rest)).map (fun r => (i, acc.reverse) :: r) with
    | some r => some r
    | none => if c.accepts x then groupL i c k (x :: acc) rest else none

/-- Regex abstract syntax for the fragment used by the source patterns. -/
inductive Re where
  | eps
  | cls (c : RChar)
  | seq (a b : Re)
  | alt (a b : Re)
  | star (c : RChar) (greedy : Bool)
  | plus (c : RChar)
  | group (i : Nat) (c : RChar) (greedy : Bool)

/-- The backtracking matcher in continuation-passing style.  `mrun r cs k`
matches `r` against a leading segment of `cs` and hands the rest to `k`;
the first success in backtracking order wins, exactly as in Python `re`. -/
def mrun : Re → List Char → (List Char → Option Caps) → Option Caps
  | .eps, cs, k => k cs
  | .cls c, cs, k =>
    match cs with
    | [] => none
    | x :: rest => if c.accepts x then k rest else none
  | .seq a b, cs, k => mrun a cs (fun cs2 => mrun b cs2 k)
  | .alt a b, cs, k =>
    match mrun a cs k with
    | some r => some r
    | none => mrun b cs k
  | .star c g, cs, k => if g then starG c k cs else starL c k cs
  | .plus c, cs, k =>
    match cs with
    | [] => none
    | x :: rest => if c.accepts x then starG c k rest else none
  | .group i c g, cs, k => if g then groupG i c k [] cs else groupL i c k [] cs

/-- `re.match`: the pattern must match a prefix of the input; trailing input
is irrelevant, so the final continuation always succeeds with no bindings. -/
def reMatch (r : Re) (cs : List Char) : Option Caps :=
  mrun r cs (fun _ => some [])

/-- A sequence of literal characters. -/
def litsL : List Char → Re
  | [] => .eps
  | c :: rest => .seq (.cls (.lit c)) (litsL rest)

/-- A literal string as a regex. -/
def lits (s : String) : Re := litsL s.toList

/-- `wwwauth_bearer_matcher = re.compile(r"^Bearer(?:\s*|\s+.+)")`
(main.py line 31). -/
def wwwauth_bearer_re : Re :=
  .seq (lits "Bearer") (.alt (.star .ws true) (.seq (.plus .ws) (.plus .any)))

/-- The shared shape of `wwwauth_client_id_matcher` / `wwwauth_tenant_id_matcher`
(main.py lines 32-37): `.*KEY(?:="(.*?)"|=(.*?),|=(.*))` with `KEY` the
parameter name. -/
def param_re (key : String) : Re :=
  .seq (.star .any true)
    (.seq (lits key)
      (.alt (.seq (lits "=\"") (.seq (.group 1 .any false) (lits "\"")))
        (.alt (.seq (lits "=") (.seq (.group 2 .any false) (lits ",")))
          (.seq (lits "=") (.group 3 .any true)))))

/-- `wwwauth_bearer_matcher.match(s)`. -/
def wwwauth_bearer_matcher (s : String) : Option Caps :=
  reMatch wwwauth_bearer_re s.toList

/-- `wwwauth_client_id_matcher.match(s)`. -/
def wwwauth_client_id_matcher (s : String) : Option Caps :=
  reMatch (param_re "msal-client-id") s.toList

/-- `wwwauth_tenant_id_matcher.match(s)`. -/
def wwwauth_tenant_id_matcher (s : String) : Option Caps :=
  reMatch (param_re "msal-tenant-id") s.toList

/-- The binding of group `i` in a match result (`None` when the group did not
participate in the match). -/
def capLookup (caps : Caps) (i : Nat) : Option (List Char) :=
  (List.find? (fun p => p.1 == i) caps).map (fun p => p.2)

/-- The `for subgroup in match.groups(): if subgroup is not None: take it`
loops of `extract_entra_ids_from_wwwauth` (main.py lines 92-100): the first
bound group among 1, 2, 3. -/
def firstNonNone (caps : Caps) : Option (List Char) :=
  match capLookup caps 1 with
  | some v => some v
  | none =>
    match capLookup caps 2 with
    | some v => some v
    | none => capLookup caps 3

/-- `wwwauth_bearer_matcher.match(auth) is not None`. -/
def wwwauth_bearer_accepts (s : String) : Bool :=
  (wwwauth_bearer_matcher s).isSome

/-- `bearer_accepted` (main.py lines 66-74).  When `wwwauth` arrived as a
scalar line, Python iterates over the characters of the string. -/
def bearer_accepted (kvs : List (String × Value)) : Bool :=
  match getKV kvs "wwwauth" with
  | none => false
  | some (Value.arr vs) => vs.any wwwauth_bearer_accepts
  | some (Value.scalar s) =>
    s.toList.any (fun c => wwwauth_bearer_accepts (String.mk [c]))

/-- The client-id parameter a single challenge value yields: match the regex,
then take the first bound group (main.py lines 86, 92-95).  `none` covers both
a failed match and — vacuously, since every successful match binds a group —
an unbound group. -/
def client_param (s : String) : Option String :=
  (wwwauth_client_id_matcher s).bind
    (fun caps => (firstNonNone caps).map (fun l => String.mk l))

/-- The tenant-id parameter a single challenge value yields (main.py
lines 87, 97-100). -/
def tenant_param (s : String) : Option String :=
  (wwwauth_tenant_id_matcher s).bind
    (fun caps => (firstNonNone caps).map (fun l => String.mk l))

/-- `extract_entra_ids_from_wwwauth` (main.py lines 77-108) restricted to its
only live input, the list of `wwwauth` challenge values (`protocol`/`host` are
read into an unused local `url`).  The Python loop keeps
`(msal_client_id, msal_tenant_id)` as `(None, None)` across skipped entries:
a non-bearer value is skipped, an entry in which either matcher fails (or —
unreachably — binds no group) resets both ids and continues, and the first
entry yielding both ids breaks out of the loop. -/
def extract_entra_ids_from_wwwauth : List String → Option String × Option String
  | [] => (none, none)
  | auth :: rest =>
    if wwwauth_bearer_accepts auth then
      match client_param auth, tenant_param auth with
      | some c, some t => (some c, some t)
      | _, _ => extract_entra_ids_from_wwwauth rest
    else extract_entra_ids_from_wwwauth rest

/-! ### Configuration lookup and identity resolution -/

/-- `git_config_get_urlmatch` (main.py lines 111-123).  The `git config`
subprocess is an external collaborator; its observable behaviour is passed in
as `run`, mapping `(url, key)` to the pair (return code, stdout).  A nonzero
return code or an empty (post-`rstrip`) stdout yields `None`. -/
def git_config_get_urlmatch (run : String → String → Int × String)
    (url key : String) : Option String :=
  let result := run url key
  if result.1 ≠ 0 then none
  else
    let config_value := pyRstrip result.2
    if config_value = "" then none else some config_value

/-- `extract_entra_ids_from_git_config` (main.py lines 126-134): query the two
config keys against the URL `protocol://host`; the pair is
(client id, tenant id). -/
def extract_entra_ids_from_git_config (run : String → String → Int × String)
    (protocol host : String) : Option String × Option String :=
  let url := protocol ++ "://" ++ host
  (git_config_get_urlmatch run url "credential.msalClientId",
   git_config_get_urlmatch run url "credential.msalTenantId")

/-- The identity-resolution step of `main` (main.py lines 309-314): take the
pair from the config lookup; if either half is `None`, replace the whole pair
by the result of challenge parsing. -/
def resolve_entra_ids (run : String → String → Int × String)
    (protocol host : String) (wwwauth : List String) :
    Option String × Option String :=
  let p := extract_entra_ids_from_git_config run protocol host
  if p.1 = none ∨ p.2 = none then extract_entra_ids_from_wwwauth wwwauth else p

/-! ### Cache names and the cache store -/

/-- `cache_name = f"{tenant_id}_{client_id}"` (main.py line 223). -/
def cache_name (tenant_id client_id : String) : String :=
  tenant_id ++ "_" ++ client_id

/-- `keyring_name = f"git-credential-msal_{cache_name}"` (main.py line 224). -/
def keyring_name (tenant_id client_id : String) : String :=
  "git-credential-msal_" ++ cache_name tenant_id client_id

/-- `msal_cache_name = f"msal_cache_{name}"` — the insecure token-cache
filename (main.py lines 138, 168). -/
def msal_cache_file (name : String) : String := "msal_cache_" ++ name

/-- `http_cache_name = f"http_cache_{name}"` — the HTTP-cache filename
(main.py lines 184, 195). -/
def http_cache_file (name : String) : String := "http_cache_" ++ name

/-- Observable outcome of `keyring.get_password("system", name)`:
`unavailable` models the `keyring.errors.NoKeyringError` raised when no
backend exists; `value v` models a normal return, where `v = none` is
Python's `None` ("no entry under this name") and `v = some s` a stored
string. -/
inductive KeyringGet where
  | unavailable
  | value (v : Option String)
deriving DecidableEq, Repr

/-- The string `data` holds after the `try/except NoKeyringError` block of
`get_msal_cache` (main.py lines 149-153). -/
def keyring_data : KeyringGet → Option String
  | .unavailable => none
  | .value v => v

/-- `get_msal_cache` (main.py lines 147-160), with the secure store's
behaviour `kr` and the insecure file read `file` passed in (`file = none`
models `get_msal_cache_insecure` returning `None`, i.e. any `open`/read
failure; main.py lines 137-144).  The result is the serialized blob the
`SerializableTokenCache` was loaded from, `none` meaning the cache stayed
empty.  Python's `if not data:` treats both `None` and `""` as falsy. -/
def get_msal_cache (kr : KeyringGet) (file : Option String) : Option String :=
  let data := keyring_data kr
  let data := if data = none ∨ data = some "" then file else data
  if data = none ∨ data = some "" then none else data

/-- The two backing tiers of the token cache visible to `put_msal_cache`:
the secure-store entry and the insecure file, each `none` when absent. -/
structure TokenStores where
  secure : Option String
  file : Option String
deriving DecidableEq, Repr

/-- `put_msal_cache_insecure` (main.py lines 163-171): return untouched unless
insecure persistence was opted into, else (over)write the file. -/
def put_msal_cache_insecure (allow_insecure : Bool) (data : String)
    (w : TokenStores) : TokenStores :=
  if allow_insecure = false then w else { w with file := some data }

/-- `put_msal_cache` (main.py lines 174-180): a no-op unless the broker flag
`cache.has_state_changed` is set; then try `keyring.set_password`, and only on
`NoKeyringError` (`keyring_available = false`) fall through to the insecure
writer. -/
def put_msal_cache (has_state_changed : Bool) (serialized : String)
    (keyring_available : Bool) (allow_insecure : Bool) (w : TokenStores) :
    TokenStores :=
  if has_state_changed then
    if keyring_available then { w with secure := some serialized }
    else put_msal_cache_insecure allow_insecure serialized w
  else w

/-- `get_http_cache` (main.py lines 183-191) over a filesystem `fs` mapping
filenames to successfully unpickled cache objects (`none` covers both a
missing file and a corrupt blob, since `except:` catches everything): any
failure yields the empty dict `emptyC`. -/
def get_http_cache {α : Type} (fs : String → Option α) (emptyC : α)
    (name : String) : α :=
  (fs (http_cache_file name)).getD emptyC

/-- `put_http_cache` (main.py lines 194-198): unconditionally overwrite the
file derived from `name`. -/
def put_http_cache {α : Type} (fs : String → Option α) (name : String)
    (http_cache : α) : String → Option α :=
  fun p => if p = http_cache_file name then some http_cache else fs p

/-- The HTTP-cache read performed by `msal_acquire_oidc_id_token`
(main.py line 226): `get_http_cache(cache_name)`. -/
def orchestrator_http_get {α : Type} (fs : String → Option α) (emptyC : α)
    (tenant_id client_id : String) : α :=
  get_http_cache fs emptyC (cache_name tenant_id client_id)

/-- The HTTP-cache write performed by `msal_acquire_oidc_id_token`
(main.py line 273): `put_http_cache(keyring_name, http_cache)`. -/
def orchestrator_http_put {α : Type} (fs : String → Option α)
    (tenant_id client_id : String) (http_cache : α) : String → Option α :=
  put_http_cache fs (keyring_name tenant_id client_id) http_cache

/-! ### The acquisition tail and the pipeline's output step -/

/-- Python dict lookup on a string-valued dict. -/
def lookupS (d : List (String × String)) (k : String) : Option String :=
  (List.find? (fun p => p.1 == k) d).map (fun p => p.2)

/-- The tail of `msal_acquire_oidc_id_token` after a flow returned
`acquire_tokens_result` (main.py lines 254-274): on `"error" in result`, print
the error code and description to stderr and leave `id_token = None`;
otherwise surface the cached OIDC ID token's secret (`secret`, looked up from
the broker-owned token cache on the success path).  The result is
(stderr lines, returned id_token); a missing `error_description` key would
raise `KeyError`, modelled as `Except.error`. -/
def msal_acquire_result_tail (acquire_tokens_result : List (String × String))
    (secret : String) : Except String (List String × Option String) :=
  if (lookupS acquire_tokens_result "error").isSome then
    match lookupS acquire_tokens_result "error",
        lookupS acquire_tokens_result "error_description" with
    | some e, some d =>
      Except.ok (["Error: " ++ e, "Description: " ++ d], none)
    | _, _ => Except.error "KeyError: error_description"
  else Except.ok ([], some secret)

/-- `jwt_expired_value` (main.py lines 201-212) as invoked by `main`
(line 336) on the value returned by `msal_acquire_oidc_id_token`.  The broker
error path returns `None` there, and `jwt.decode(None, ...)` raises — hence
the `Option` domain.  Decoding itself belongs to the external JWT
collaborator, abstracted by `exp_claim`; the epoch arithmetic of lines 208-212
returns the claim verbatim. -/
def jwt_expired_value (exp_claim : String → Option Int) (token : Option String) :
    Except String Int :=
  match token with
  | none => Except.error "jwt.decode raised: token must not be None"
  | some t =>
    match exp_claim t with
    | none => Except.error "jwt.decode raised: undecodable token or missing exp"
    | some e => Except.ok e

/-- The final stretch of `main` (main.py lines 333-341) from the value
`id_token` returned by the acquisition: compute the expiry (which aborts the
process with a traceback when it raises), then print the four protocol lines.
`Except.error` models abnormal termination with a nonzero exit status, before
any stdout line is produced. -/
def main_get_emit (exp_claim : String → Option Int) (id_token : Option String) :
    Except String (List String) :=
  match jwt_expired_value exp_claim id_token with
  | Except.error e => Except.error e
  | Except.ok expiry =>
    Except.ok ["capability[]=authtype", "authtype=Bearer",
      "credential=" ++ id_token.getD "", "password_expiry_utc=" ++ toString expiry]

/-! ### Definitions following the spec's words, for comparison with the code -/

/-- The Bearer-challenge shape exactly as the spec words it (claim C8): a value
that is exactly `Bearer`, or `Bearer` followed by one-or-more whitespace
characters and arbitrary trailing content.  Stated from the spec, not from the
source, for comparison with `wwwauth_bearer_accepts`. -/
def bearer_shape_specC8 (v : String) : Bool :=
  if v.toList.take 6 = "Bearer".toList then
    match v.toList.drop 6 with
    | [] => true
    | c :: _ => isPyWs c
  else false

/-- The token-cache read exactly as the spec words it (claim C5): fall back to
the insecure file only when the secure store itself is unavailable; a store
that is available but has no entry yields the empty cache.  Stated from the
spec, not from the source, for comparison with `get_msal_cache`. -/
def get_msal_cache_specC5 (kr : KeyringGet) (file : Option String) :
    Option String :=
  match kr with
  | .unavailable =>
    match file with
    | none => none
    | some s => if s = "" then none else some s
  | .value none => none
  | .value (some s) => if s = "" then none else some s

/-- The deserialisation guard applied to whichever blob a tier yielded:
Python's `if data:` skips `None` and the empty string, leaving the cache
empty. -/
def falsy_filter (d : Option String) : Option String :=
  if d = none ∨ d = some "" then none else d

/-! ### Helper lemmas -/

/-- A literal-characters regex matches by peeling the literal off the front of
the input and passing the remainder to the continuation. -/
theorem mrun_litsL (l : List Char) :
    ∀ (cs : List Char) (k : List Char → Option Caps),
      mrun (litsL l) cs k = (dropPrefixOpt l cs).bind k := by
  induction l with
  | nil => intro cs k; simp [litsL, mrun, dropPrefixOpt]
  | cons p ps ih =>
    intro cs k
    cases cs with
    | nil => simp [litsL, mrun, dropPrefixOpt]
    | cons x rest =>
      by_cases h : p = x
      · simp [litsL, mrun, dropPrefixOpt, RChar.accepts, h, ih]
      · simp [litsL, mrun, dropPrefixOpt, RChar.accepts, h]

/-- A greedy starred class with an always-succeeding continuation succeeds. -/
theorem starG_top (c : RChar) :
    ∀ cs : List Char, starG c (fun _ => some []) cs = some [] := by
  intro cs
  induction cs with
  | nil => rfl
  | cons x rest ih => simp [starG, ih]

/-- The Bearer matcher accepts a string exactly when `Bearer` is a leading
segment of it: the branch `\s*` of `(?:\s*|\s+.+)` matches the empty string,
so the group constrains nothing. -/
theorem bearer_accepts_eq (s : String) :
    wwwauth_bearer_accepts s = (dropPrefixOpt "Bearer".toList s.toList).isSome := by
  have hk : ∀ cs2 : List Char,
      mrun (Re.alt (.star .ws true) (.seq (.plus .ws) (.plus .any))) cs2
        (fun _ => some []) = some [] := by
    intro cs2
    simp [mrun, starG_top]
  show (mrun (Re.seq (lits "Bearer")
      (Re.alt (.star .ws true) (.seq (.plus .ws) (.plus .any)))) s.toList
      (fun _ => some [])).isSome = _
  rw [show ∀ (a b : Re) (cs : List Char) (k : List Char → Option Caps),
        mrun (Re.seq a b) cs k = mrun a cs (fun cs2 => mrun b cs2 k) from
      fun _ _ _ _ => rfl]
  rw [show lits "Bearer" = litsL "Bearer".toList from rfl]
  rw [mrun_litsL]
  cases h : dropPrefixOpt "Bearer".toList s.toList with
  | none => rfl
  | some r =>
    show (mrun (Re.alt (.star .ws true) (.seq (.plus .ws) (.plus .any))) r
      (fun _ => some [])).isSome = true
    rw [hk r]
    rfl

/-- `dropPrefixOpt` succeeds exactly on inputs that extend the pattern. -/
theorem dropPrefixOpt_isSome (p : List Char) :
    ∀ cs : List Char, (dropPrefixOpt p cs).isSome = true ↔ ∃ t, cs = p ++ t := by
  induction p with
  | nil =>
    intro cs
    simp [dropPrefixOpt]
  | cons a ps ih =>
    intro cs
    cases cs with
    | nil => simp [dropPrefixOpt]
    | cons c rest =>
      by_cases h : a = c
      · subst h
        simp [dropPrefixOpt, ih rest]
      · have hd : dropPrefixOpt (a :: ps) (c :: rest) = none := by
          simp [dropPrefixOpt, h]
        rw [hd]
        constructor
        · intro hs
          exact absurd hs (by decide)
        · rintro ⟨t, ht⟩
          rw [List.cons_append, List.cons.injEq] at ht
          exact absurd ht.1.symm h

/-- Appending distinct suffixes to names of different lengths: the HTTP-cache
filename the orchestrator reads is never the one it writes. -/
theorem cache_keyring_name_ne (t c : String) :
    http_cache_file (cache_name t c) ≠ http_cache_file (keyring_name t c) := by
  intro h
  have hl := congrArg String.length h
  simp only [http_cache_file, keyring_name, cache_name, String.length_append] at hl
  have h20 : "git-credential-msal_".length = 20 := rfl
  rw [h20] at hl
  omega

/-- A common leading string cancels on the left of string equality. -/
theorem string_append_cancel (p a b : String) (h : p ++ a = p ++ b) : a = b := by
  have hd := congrArg String.data h
  rw [String.data_append, String.data_append] at hd
  exact String.ext (List.append_cancel_left hd)

/-- If neither side of a single-separator join contains the separator, the
join determines both sides. -/
theorem sep_inj :
    ∀ (t1 t2 c1 c2 : List Char), '_' ∉ t1 → '_' ∉ t2 →
      t1 ++ '_' :: c1 = t2 ++ '_' :: c2 → t1 = t2 ∧ c1 = c2 := by
  intro t1
  induction t1 with
  | nil =>
    intro t2 c1 c2 _ h2 h
    cases t2 with
    | nil =>
      refine ⟨rfl, ?_⟩
      simpa using h
    | cons b t2' =>
      rw [List.nil_append, List.cons_append, List.cons.injEq] at h
      refine absurd ?_ h2
      rw [← h.1]
      exact List.mem_cons_self '_' t2'
  | cons a t1' ih =>
    intro t2 c1 c2 h1 h2 h
    cases t2 with
    | nil =>
      rw [List.nil_append, List.cons_append, List.cons.injEq] at h
      refine absurd ?_ h1
      rw [h.1]
      exact List.mem_cons_self '_' t1'
    | cons b t2' =>
      rw [List.cons_append, List.cons_append, List.cons.injEq] at h
      have h1' : '_' ∉ t1' := fun hm => h1 (List.mem_cons_of_mem a hm)
      have h2' : '_' ∉ t2' := fun hm => h2 (List.mem_cons_of_mem b hm)
      obtain ⟨ht, hc⟩ := ih t2' c1 c2 h1' h2' h.2
      exact ⟨by rw [h.1, ht], hc⟩

/-- The character data underlying a derived cache name. -/
theorem cache_name_data (t c : String) :
    (cache_name t c).data = t.data ++ '_' :: c.data := by
  have hu : "_".data = ['_'] := rfl
  simp [cache_name, String.data_append, hu]

/-! ### Claim theorems -/

/-- Claim C1 (code bug): when the broker's acquisition result contains an
error, the orchestration tail does emit the error code and description to the
diagnostic stream and returns no token — but `main` then feeds the `None`
token straight into `jwt_expired_value`, which raises, so the process aborts
abnormally before printing any credential line instead of exiting with status
zero as the claim states. -/
theorem c1_broker_error_aborts :
    msal_acquire_result_tail
        [("error", "access_denied"), ("error_description", "User cancelled")]
        "sec" =
      Except.ok (["Error: access_denied", "Description: User cancelled"], none) ∧
    main_get_emit (fun _ => some 0) none =
      Except.error "jwt.decode raised: token must not be None" :=
  ⟨rfl, rfl⟩

/-- Claim C2 (code bug): the orchestrator reads the HTTP cache under
`cache_name` but writes it back under `keyring_name`, so the write never
affects any later read for the same identity — the put/get round trip the
claim states cannot succeed: a read after a write still sees only the
pre-existing filesystem, and on an empty filesystem it yields the empty cache
rather than the stored object. -/
theorem c2_http_roundtrip_broken :
    (∀ (α : Type) (fs : String → Option α) (e : α) (t c : String) (obj : α),
      orchestrator_http_get (orchestrator_http_put fs t c obj) e t c =
        orchestrator_http_get fs e t c) ∧
    orchestrator_http_get
        (orchestrator_http_put (fun _ => (none : Option Nat)) "T" "C" 1)
        0 "T" "C" = 0 := by
  constructor
  · intro α fs e t c obj
    show (if http_cache_file (cache_name t c) = http_cache_file (keyring_name t c)
        then some obj else fs (http_cache_file (cache_name t c))).getD e =
      (fs (http_cache_file (cache_name t c))).getD e
    rw [if_neg (cache_keyring_name_ne t c)]
  · rfl

/-- Claim C3 (counterexample): on the input lines `capability[]=a`,
`capability[]=`, `capability[]=b` the parser yields the sequence `["", "b"]`
for `capability` — the empty-value entry clears the accumulated list but the
empty string itself is then appended — not the sequence `["b"]` the claim
states. -/
theorem c3_counterexample :
    read_stdin_pairs ["capability[]=a", "capability[]=", "capability[]=b"] =
      Except.ok [("capability", Value.arr ["", "b"])] ∧
    Value.arr ["", "b"] ≠ Value.arr ["b"] :=
  ⟨rfl, by decide⟩

/-- Claim C3 (amended): the three lines produce exactly the sequence
`["", "b"]` for `capability`: an empty value resets the accumulation and is
itself appended, and later values follow it. -/
theorem c3_amended :
    read_stdin_pairs ["capability[]=a", "capability[]=", "capability[]=b"] =
      Except.ok [("capability", Value.arr ["", "b"])] := rfl

/-- Claim C4 (counterexample): the underscore-joined derivation is not
injective on all identities — the distinct pairs `("a_b", "c")` and
`("a", "b_c")` share the token-cache name, the keyring entry name, and both
derived cache filenames. -/
theorem c4_counterexample :
    cache_name "a_b" "c" = cache_name "a" "b_c" ∧
    keyring_name "a_b" "c" = keyring_name "a" "b_c" ∧
    http_cache_file (cache_name "a_b" "c") = http_cache_file (cache_name "a" "b_c") ∧
    msal_cache_file (keyring_name "a_b" "c") =
      msal_cache_file (keyring_name "a" "b_c") ∧
    ("a_b", "c") ≠ (("a", "b_c") : String × String) := by
  refine ⟨by decide, by decide, by decide, by decide, by decide⟩

/-- Claim C4 (amended): the cache-name derivation is injective on identities
whose tenant id contains no underscore — for such pairs, equality of any of
the derived names (token-cache name, keyring entry, HTTP-cache filename,
token-cache filename) forces equality of the identities. -/
theorem c4_amended (t1 c1 t2 c2 : String)
    (h1 : '_' ∉ t1.data) (h2 : '_' ∉ t2.data) :
    (cache_name t1 c1 = cache_name t2 c2 → t1 = t2 ∧ c1 = c2) ∧
    (keyring_name t1 c1 = keyring_name t2 c2 → t1 = t2 ∧ c1 = c2) ∧
    (http_cache_file (cache_name t1 c1) = http_cache_file (cache_name t2 c2) →
      t1 = t2 ∧ c1 = c2) ∧
    (msal_cache_file (keyring_name t1 c1) = msal_cache_file (keyring_name t2 c2) →
      t1 = t2 ∧ c1 = c2) := by
  have base : cache_name t1 c1 = cache_name t2 c2 → t1 = t2 ∧ c1 = c2 := by
    intro h
    have hd := congrArg String.data h
    rw [cache_name_data, cache_name_data] at hd
    obtain ⟨ha, hb⟩ := sep_inj t1.data t2.data c1.data c2.data h1 h2 hd
    exact ⟨String.ext ha, String.ext hb⟩
  refine ⟨base, ?_, ?_, ?_⟩
  · intro h
    exact base (string_append_cancel "git-credential-msal_" _ _ h)
  · intro h
    exact base (string_append_cancel "http_cache_" _ _ h)
  · intro h
    exact base (string_append_cancel "git-credential-msal_" _ _
      (string_append_cancel "msal_cache_" _ _ h))

/-- Claim C4 (witness for the amended theorem). -/
theorem c4_amended_witness : "t" = "t" ∧ "c" = "c" :=
  (c4_amended "t" "c" "t" "c" (by decide) (by decide)).1 rfl

/-- Claim C5 (counterexample): with the secure store available but holding no
entry for the name (`keyring.get_password` returns `None`), the read does
consult the insecure file and returns its contents, where the claim (and the
spec-worded reference `get_msal_cache_specC5`) would yield the empty cache. -/
theorem c5_counterexample :
    get_msal_cache (KeyringGet.value none) (some "D") = some "D" ∧
    get_msal_cache_specC5 (KeyringGet.value none) (some "D") = none ∧
    (some "D" : Option String) ≠ none :=
  ⟨rfl, rfl, by decide⟩

/-- Claim C5 (amended): the read falls back to the insecure file whenever the
secure tier yields no usable data — store unavailable, entry absent, or entry
empty alike; a nonempty secure entry is used without consulting the file; and
when the fallback is taken and the file tier also yields nothing, the result
is the empty cache, not an error. -/
theorem c5_amended (kr : KeyringGet) (file : Option String) :
    (∀ s, keyring_data kr = some s → s ≠ "" →
      get_msal_cache kr file = some s) ∧
    ((keyring_data kr = none ∨ keyring_data kr = some "") →
      get_msal_cache kr file = falsy_filter file) ∧
    ((keyring_data kr = none ∨ keyring_data kr = some "") → file = none →
      get_msal_cache kr file = none) := by
  refine ⟨?_, ?_, ?_⟩
  · intro s hs hne
    simp [get_msal_cache, hs, hne]
  · intro hfalsy
    rcases hfalsy with h | h <;> simp [get_msal_cache, falsy_filter, h]
  · intro hfalsy hf
    subst hf
    rcases hfalsy with h | h <;> simp [get_msal_cache, h]

/-- Claim C5 (witness for the amended theorem). -/
theorem c5_amended_witness :
    get_msal_cache (KeyringGet.value (some "X")) none = some "X" :=
  (c5_amended (KeyringGet.value (some "X")) none).1 "X" rfl (by decide)

/-- Claim C6: identity resolution treats the pair as a unit — if the config
lookup yields both halves, that pair is the result; if either half is absent,
the whole pair comes from challenge parsing instead. -/
theorem c6_resolution (run : String → String → Int × String)
    (protocol host : String) (wwwauth : List String) :
    (∀ cVal tVal,
      extract_entra_ids_from_git_config run protocol host = (some cVal, some tVal) →
      resolve_entra_ids run protocol host wwwauth = (some cVal, some tVal)) ∧
    ((extract_entra_ids_from_git_config run protocol host).1 = none ∨
      (extract_entra_ids_from_git_config run protocol host).2 = none →
      resolve_entra_ids run protocol host wwwauth =
        extract_entra_ids_from_wwwauth wwwauth) := by
  constructor
  · intro cVal tVal h
    show (if (extract_entra_ids_from_git_config run protocol host).1 = none ∨
        (extract_entra_ids_from_git_config run protocol host).2 = none
        then extract_entra_ids_from_wwwauth wwwauth
        else extract_entra_ids_from_git_config run protocol host) = _
    rw [h]
    simp
  · intro h
    show (if (extract_entra_ids_from_git_config run protocol host).1 = none ∨
        (extract_entra_ids_from_git_config run protocol host).2 = none
        then extract_entra_ids_from_wwwauth wwwauth
        else extract_entra_ids_from_git_config run protocol host) = _
    rw [if_pos h]

/-- Claim C6 (witness): a config oracle answering both keys resolves from
configuration, ignoring the (empty) challenge list. -/
theorem c6_resolution_witness :
    resolve_entra_ids
        (fun _ k => if k = "credential.msalClientId" then ((0 : Int), "C")
          else ((0 : Int), "T"))
        "https" "h" [] = (some "C", some "T") :=
  (c6_resolution _ "https" "h" []).1 "C" "T" (by decide)

/-- Claim C7: challenge-parameter extraction skips non-bearer entries and
entries yielding fewer than both parameters, the first bearer entry yielding
both wins, and each of the three parameter shapes (quoted, comma-terminated
unquoted, end-of-string-terminated unquoted) is recovered. -/
theorem c7_challenge_extraction :
    (∀ auth rest, wwwauth_bearer_accepts auth = false →
      extract_entra_ids_from_wwwauth (auth :: rest) =
        extract_entra_ids_from_wwwauth rest) ∧
    (∀ auth rest, client_param auth = none ∨ tenant_param auth = none →
      extract_entra_ids_from_wwwauth (auth :: rest) =
        extract_entra_ids_from_wwwauth rest) ∧
    (∀ auth rest c t, wwwauth_bearer_accepts auth = true →
      client_param auth = some c → tenant_param auth = some t →
      extract_entra_ids_from_wwwauth (auth :: rest) = (some c, some t)) ∧
    extract_entra_ids_from_wwwauth
        ["Bearer realm=\"r\", msal-client-id=\"CID\", msal-tenant-id=\"TID\""] =
      (some "CID", some "TID") ∧
    extract_entra_ids_from_wwwauth
        ["Bearer msal-client-id=cid,msal-tenant-id=tid,x=1"] =
      (some "cid", some "tid") ∧
    extract_entra_ids_from_wwwauth
        ["Bearer msal-tenant-id=tid,msal-client-id=cid"] =
      (some "cid", some "tid") ∧
    extract_entra_ids_from_wwwauth
        ["Bearer msal-client-id=\"only\"",
         "Basic msal-client-id=\"b\" msal-tenant-id=\"b2\"",
         "Bearer msal-client-id=\"C2\" msal-tenant-id=\"T2\"",
         "Bearer msal-client-id=\"C3\" msal-tenant-id=\"T3\""] =
      (some "C2", some "T2") := by
  refine ⟨?_, ?_, ?_, by decide, by decide, by decide, by decide⟩
  · intro auth rest h
    simp [extract_entra_ids_from_wwwauth, h]
  · intro auth rest h
    cases hb : wwwauth_bearer_accepts auth
    · simp [extract_entra_ids_from_wwwauth, hb]
    · cases hc : client_param auth <;> cases ht : tenant_param auth <;>
        simp_all [extract_entra_ids_from_wwwauth]
  · intro auth rest c t hb hc ht
    simp [extract_entra_ids_from_wwwauth, hb, hc, ht]

/-- Claim C7 (witness): a bearer challenge carrying both parameters wins
immediately. -/
theorem c7_challenge_extraction_witness :
    extract_entra_ids_from_wwwauth
        ["Bearer msal-client-id=\"W1\" msal-tenant-id=\"W2\"", "junk"] =
      (some "W1", some "W2") :=
  c7_challenge_extraction.2.2.1
    "Bearer msal-client-id=\"W1\" msal-tenant-id=\"W2\"" ["junk"] "W1" "W2"
    (by decide) (by decide) (by decide)

/-- Claim C8 (counterexample): the compiled pattern `^Bearer(?:\s*|\s+.+)`
accepts `"Bearerx"` — the `\s*` branch matches the empty string, so any value
with `Bearer` as a leading segment is accepted — although that value does not
have the claimed shape (exactly `Bearer`, or `Bearer` plus whitespace plus
trailing content). -/
theorem c8_counterexample :
    bearer_accepted [("wwwauth", Value.arr ["Bearerx"])] = true ∧
    bearer_shape_specC8 "Bearerx" = false := by
  refine ⟨by decide, by decide⟩

/-- Claim C8 (amended): `bearer_accepted` is true exactly when `wwwauth` is
present as a multi-valued attribute and at least one of its values starts
with the literal `Bearer` (anything, including a non-whitespace character,
may follow); it is false when `wwwauth` is absent. -/
theorem c8_amended (kvs : List (String × Value)) :
    (getKV kvs "wwwauth" = none → bearer_accepted kvs = false) ∧
    (∀ vs, getKV kvs "wwwauth" = some (Value.arr vs) →
      (bearer_accepted kvs = true ↔
        ∃ v ∈ vs, ∃ t, v.toList = "Bearer".toList ++ t)) := by
  constructor
  · intro h
    simp [bearer_accepted, h]
  · intro vs h
    show (match getKV kvs "wwwauth" with
      | none => false
      | some (Value.arr vs) => vs.any wwwauth_bearer_accepts
      | some (Value.scalar s) =>
        s.toList.any (fun c => wwwauth_bearer_accepts (String.mk [c]))) = true ↔ _
    rw [h]
    show vs.any wwwauth_bearer_accepts = true ↔ _
    rw [List.any_eq_true]
    constructor
    · rintro ⟨v, hv, hacc⟩
      rw [bearer_accepts_eq] at hacc
      exact ⟨v, hv, (dropPrefixOpt_isSome "Bearer".toList v.toList).1 hacc⟩
    · rintro ⟨v, hv, ht⟩
      refine ⟨v, hv, ?_⟩
      rw [bearer_accepts_eq]
      exact (dropPrefixOpt_isSome "Bearer".toList v.toList).2 ht

/-- Claim C8 (witness for the amended theorem). -/
theorem c8_amended_witness :
    bearer_accepted [("wwwauth", Value.arr ["Bearer x"])] = true ↔
      ∃ v ∈ ["Bearer x"], ∃ t, v.toList = "Bearer".toList ++ t :=
  (c8_amended [("wwwauth", Value.arr ["Bearer x"])]).2 ["Bearer x"] rfl

/-- Claim C9: the token-cache write is a no-op when the broker reports no
state change; on a change it writes the secure store when available (leaving
the file alone), writes the insecure file only when the store is unavailable
and insecure persistence was opted into, and otherwise drops the state. -/
theorem c9_token_cache_write
    (has_state_changed keyring_available allow_insecure : Bool)
    (serialized : String) (w : TokenStores) :
    (has_state_changed = false →
      put_msal_cache has_state_changed serialized keyring_available
        allow_insecure w = w) ∧
    (has_state_changed = true → keyring_available = true →
      put_msal_cache has_state_changed serialized keyring_available
        allow_insecure w = { secure := some serialized, file := w.file }) ∧
    (has_state_changed = true → keyring_available = false →
      allow_insecure = true →
      put_msal_cache has_state_changed serialized keyring_available
        allow_insecure w = { secure := w.secure, file := some serialized }) ∧
    (has_state_changed = true → keyring_available = false →
      allow_insecure = false →
      put_msal_cache has_state_changed serialized keyring_available
        allow_insecure w = w) := by
  refine ⟨?_, ?_, ?_, ?_⟩ <;> intro h1 <;> try intro h2
  · subst h1
    simp [put_msal_cache]
  · subst h1; subst h2
    simp [put_msal_cache]
  · intro h3
    subst h1; subst h2; subst h3
    simp [put_msal_cache, put_msal_cache_insecure]
  · intro h3
    subst h1; subst h2; subst h3
    simp [put_msal_cache, put_msal_cache_insecure]

/-- Claim C9 (witness). -/
theorem c9_token_cache_write_witness :
    put_msal_cache true "d" true false ⟨none, some "old"⟩ =
      { secure := some "d", file := some "old" } :=
  (c9_token_cache_write true true false "d" ⟨none, some "old"⟩).2.1 rfl rfl

/-- Claim C10: when `capability` arrives as a scalar line, the capability
check is Python substring containment on that string, so any scalar value
containing `authtype` — such as `xauthtypey` — passes; the same value inside
a multi-valued list would not. -/
theorem c10_scalar_capability :
    (∀ kvs s, getKV kvs "capability" = some (Value.scalar s) →
      authtype_accepted kvs = containsSub "authtype".toList s.toList) ∧
    authtype_accepted [("capability", Value.scalar "xauthtypey")] = true ∧
    authtype_accepted [("capability", Value.arr ["xauthtypey"])] = false ∧
    read_stdin_pairs ["capability=xauthtypey"] =
      Except.ok [("capability", Value.scalar "xauthtypey")] := by
  refine ⟨?_, by decide, by decide, rfl⟩
  intro kvs s h
  simp [authtype_accepted, h]

/-- Claim C10 (witness). -/
theorem c10_scalar_capability_witness :
    authtype_accepted [("capability", Value.scalar "abc")] =
      containsSub "authtype".toList "abc".toList :=
  c10_scalar_capability.1 [("capability", Value.scalar "abc")] "abc" rfl

end Msal
